import Mathlib

/-!
Verification of `lib/tools.py` (distro-info-data validation helpers).

The file embeds the two functions of `lib/tools.py` shallowly:

* `convert_date` — converts an ISO 8601 date string into a date value.
  The Python code is

  ```
  def convert_date(string):
      if not string:
          date = None
      else:
          parts = [int(x) for x in string.split("-")]
          if len(parts) == 3:
              (year, month, day) = parts
              date = datetime.date(year, month, day)
          else:
              raise ValueError("Date not in ISO 8601 format.")
      return date
  ```

  The Python builtins it leans on are modelled explicitly:
  `str.split("-")` is `splitOnDash`, `int(x)` is `pyInt` (optional ASCII
  whitespace around an optional sign followed by ASCII digits, with single
  underscores allowed between digits, as CPython accepts), and
  `datetime.date(y, m, d)` is `pyDate` (year 1..9999, month 1..12, day in
  range for the month, proleptic Gregorian leap years).  The three kinds of
  `ValueError` the Python code can raise are kept apart in `ConvError`:
  the one raised by `int()`, the one raised by `datetime.date`, and the
  explicit "Date not in ISO 8601 format." raise.

* `main` — the CLI dispatcher.  It is embedded as a function of the parsed
  argument record (`Args`, the result of `parser.parse_args()`) and of the
  injected validation function.  Its result pairs the process outcome
  (`parser.error` prints to stderr and exits with status 2, modelled by
  `MainOutcome.usageError`; a normal return of `n` from `main` is
  `MainOutcome.exit n`) with the trace of calls made to the validation
  function, so that "the validator is never called" and "the validator is
  called with this distro label" are statable.
-/

deriving instance DecidableEq for Except

namespace Tools

/-- Char is an ASCII decimal digit, `'0'`..`'9'` (code points 48..57). -/
def isDigitChar (c : Char) : Bool :=
  48 ≤ c.toNat && c.toNat ≤ 57

/-- Char is one of the ASCII whitespace characters that CPython's `int()`
strips from both ends of its argument. -/
def isPySpace (c : Char) : Bool :=
  c = ' ' || c = '\t' || c = '\n' || c = '\r' || c = '\x0b' || c = '\x0c'

/-- Strip `isPySpace` characters from both ends of a character list, as
`int()` does before parsing. -/
def stripSpaces (l : List Char) : List Char :=
  (((l.dropWhile isPySpace).reverse.dropWhile isPySpace)).reverse

/-- Accumulating digit scanner for the body of a CPython integer literal:
digits with single underscores allowed between two digits.  `acc` is the
value of the digits already consumed. -/
def parseDigitsAux : Nat → List Char → Option Nat
  | acc, [] => some acc
  | acc, c :: cs =>
    if isDigitChar c then parseDigitsAux (acc * 10 + (c.toNat - 48)) cs
    else if c = '_' then
      match cs with
      | [] => none
      | c2 :: cs2 =>
        if isDigitChar c2 then parseDigitsAux (acc * 10 + (c2.toNat - 48)) cs2
        else none
    else none

/-- Parse a nonempty digit string (underscores allowed between digits, as in
CPython) to its value; `none` on anything else.  The first character must be
a digit. -/
def parseDigits : List Char → Option Nat
  | [] => none
  | c :: cs => if isDigitChar c then parseDigitsAux (c.toNat - 48) cs else none

/-- Sign-and-digits phase of CPython `int(x)`: one optional `+` or `-`
sign followed by a digit string. -/
def pyIntCore : List Char → Option Int
  | [] => none
  | c :: rest =>
    if c = '+' then (parseDigits rest).map (fun n => (n : Int))
    else if c = '-' then (parseDigits rest).map (fun n => -(n : Int))
    else (parseDigits (c :: rest)).map (fun n => (n : Int))

/-- CPython `int(x)` on a string, restricted to ASCII: strip whitespace,
allow one optional `+` or `-` sign, then a digit string.  `none` models the
`ValueError` that `int()` raises on anything else. -/
def pyInt (l : List Char) : Option Int :=
  pyIntCore (stripSpaces l)

/-- Python `string.split("-")`: split on every `'-'`, keeping empty pieces;
on the empty string the result is `[[]]` (Python: `[""]`). -/
def splitOnDash : List Char → List (List Char)
  | [] => [[]]
  | c :: cs =>
    if c = '-' then [] :: splitOnDash cs
    else
      match splitOnDash cs with
      | [] => [[c]]
      | p :: ps => (c :: p) :: ps

/-- Proleptic Gregorian leap year, as used by `datetime.date`. -/
def isLeapYear (y : Int) : Bool :=
  y % 4 == 0 && (y % 100 != 0 || y % 400 == 0)

/-- Number of days in month `m` of year `y`, as used by `datetime.date`. -/
def daysInMonth (y m : Int) : Int :=
  if m = 2 then (if isLeapYear y then 29 else 28)
  else if m = 4 ∨ m = 6 ∨ m = 9 ∨ m = 11 then 30
  else 31

/-- The domain check of `datetime.date(year, month, day)`: year within
`MINYEAR = 1` .. `MAXYEAR = 9999`, month 1..12, day 1..days in the month. -/
def isValidDate (y m d : Int) : Bool :=
  1 ≤ y && y ≤ 9999 && 1 ≤ m && m ≤ 12 && 1 ≤ d && d ≤ daysInMonth y m

/-- A `datetime.date` value: year, month, day. -/
structure PyDate where
  year : Int
  month : Int
  day : Int
deriving DecidableEq, Repr

/-- The three kinds of `ValueError` that `convert_date` can raise:
`numericError p` is the `ValueError` of `int()` on the unparseable part `p`,
`calendarError` is the `ValueError` of `datetime.date` on out-of-range
components, and `formatError` is the explicit
`ValueError("Date not in ISO 8601 format.")`. -/
inductive ConvError where
  | numericError (part : List Char)
  | calendarError
  | formatError
deriving DecidableEq, Repr

/-- `datetime.date(y, m, d)`: the date value if the components are in range,
otherwise the constructor's `ValueError`. -/
def pyDate (y m d : Int) : Except ConvError PyDate :=
  if isValidDate y m d then Except.ok ⟨y, m, d⟩ else Except.error ConvError.calendarError

/-- The list comprehension `[int(x) for x in parts]`: convert each part in
order, raising the `int()` error of the first unconvertible part. -/
def intParts : List (List Char) → Except ConvError (List Int)
  | [] => Except.ok []
  | p :: ps =>
    match pyInt p with
    | none => Except.error (ConvError.numericError p)
    | some n =>
      match intParts ps with
      | Except.error e => Except.error e
      | Except.ok ns => Except.ok (n :: ns)

/-- `convert_date(string)` from `lib/tools.py`.  The argument is an
`Option String` because Python callers may pass `None`; `if not string`
takes the null branch for both `None` and the empty string.  The result is
`Except.ok` of the returned value (a date or `None`) or `Except.error` of
the raised `ValueError`. -/
def convert_date (string : Option String) : Except ConvError (Option PyDate) :=
  match string with
  | none => Except.ok none
  | some s =>
    if s.data.isEmpty then Except.ok none
    else
      match intParts (splitOnDash s.data) with
      | Except.error e => Except.error e
      | Except.ok parts =>
        match parts with
        | [year, month, day] => (pyDate year month day).map some
        | _ => Except.error ConvError.formatError

/-- The record produced by `parser.parse_args()` in `main`: the two boolean
selector flags and the required positional `csv_file`. -/
structure Args where
  debian : Bool
  ubuntu : Bool
  csv_file : String
deriving DecidableEq, Repr

/-- Process outcome of `main`: `usageError msg` is `parser.error(msg)`,
which prints the usage and `msg` to stderr and exits with status 2;
`exit n` is a normal return of `n` (the process exit code). -/
inductive MainOutcome where
  | usageError (msg : String)
  | exit (code : Nat)
deriving DecidableEq, Repr

/-- The process exit status of a `MainOutcome` (`parser.error` calls
`sys.exit(2)`). -/
def MainOutcome.exitCode : MainOutcome → Nat
  | .usageError _ => 2
  | .exit c => c

/-- `len([x for x in [args.debian, args.ubuntu] if x])`: the number of
selector flags set. -/
def selectedCount (args : Args) : Nat :=
  (([args.debian, args.ubuntu]).filter (fun x => x)).length

/-- `main(validation_function)` from `lib/tools.py`, after argument
parsing: checks that exactly one selector flag is set, resolves the distro
label, and returns `int(not validation_function(args.csv_file, distro))`.
The second component of the result is the trace of calls made to
`validation_function` (argument pairs, in order). -/
def main (validation_function : String → String → Bool) (args : Args) :
    MainOutcome × List (String × String) :=
  if selectedCount args ≠ 1 then
    (MainOutcome.usageError "You have to select exactly one of --debian, --ubuntu.", [])
  else
    let distro := if args.debian then "debian" else "ubuntu"
    (MainOutcome.exit (if validation_function args.csv_file distro then 0 else 1),
     [(args.csv_file, distro)])

/-- Value of a digit string, most significant digit first. -/
def digitsToNat (l : List Char) : Nat :=
  l.foldl (fun acc c => acc * 10 + (c.toNat - 48)) 0

/-! Helper lemmas about the modelled Python builtins. -/

theorem isDigitChar_bounds {c : Char} (h : isDigitChar c = true) :
    48 ≤ c.toNat ∧ c.toNat ≤ 57 := by
  simpa [isDigitChar] using h

theorem isDigitChar_ne_dash {c : Char} (h : isDigitChar c = true) : c ≠ '-' := by
  have hb := isDigitChar_bounds h
  rintro rfl
  exact absurd hb (by decide)

theorem isDigitChar_ne_plus {c : Char} (h : isDigitChar c = true) : c ≠ '+' := by
  have hb := isDigitChar_bounds h
  rintro rfl
  exact absurd hb (by decide)

theorem isPySpace_eq_false_of_digit {c : Char} (h : isDigitChar c = true) :
    isPySpace c = false := by
  have hb := isDigitChar_bounds h
  cases hx : isPySpace c
  · rfl
  · exfalso
    simp only [isPySpace, Bool.or_eq_true, decide_eq_true_eq] at hx
    rcases hx with ((((rfl | rfl) | rfl) | rfl) | rfl) | rfl <;> exact absurd hb (by decide)

theorem stripSpaces_of_digits {l : List Char} (h : ∀ c ∈ l, isDigitChar c = true) :
    stripSpaces l = l := by
  unfold stripSpaces
  have h1 : l.dropWhile isPySpace = l := by
    cases l with
    | nil => rfl
    | cons c cs =>
      rw [List.dropWhile_cons,
        if_neg (by simp [isPySpace_eq_false_of_digit (h c (List.mem_cons_self c cs))])]
  rw [h1]
  have h2 : l.reverse.dropWhile isPySpace = l.reverse := by
    cases hr : l.reverse with
    | nil => rfl
    | cons c cs =>
      have hc : c ∈ l := by
        have hm : c ∈ l.reverse := by rw [hr]; exact List.mem_cons_self c cs
        simpa using hm
      rw [List.dropWhile_cons, if_neg (by simp [isPySpace_eq_false_of_digit (h c hc)])]
  rw [h2, List.reverse_reverse]

theorem parseDigitsAux_of_digits {l : List Char} (h : ∀ c ∈ l, isDigitChar c = true)
    (acc : Nat) :
    parseDigitsAux acc l = some (l.foldl (fun a c => a * 10 + (c.toNat - 48)) acc) := by
  induction l generalizing acc with
  | nil => rfl
  | cons c cs ih =>
    have hc := h c (List.mem_cons_self c cs)
    rw [parseDigitsAux.eq_def]
    simp only [hc, if_true, List.foldl_cons]
    exact ih (fun x hx => h x (List.mem_cons_of_mem c hx)) _

theorem parseDigits_of_digits {l : List Char} (hne : l ≠ [])
    (h : ∀ c ∈ l, isDigitChar c = true) :
    parseDigits l = some (digitsToNat l) := by
  cases l with
  | nil => exact absurd rfl hne
  | cons c cs =>
    have hc := h c (List.mem_cons_self c cs)
    rw [parseDigits, if_pos hc,
      parseDigitsAux_of_digits (fun x hx => h x (List.mem_cons_of_mem c hx))]
    simp [digitsToNat]

theorem pyInt_of_digits {l : List Char} (hne : l ≠ [])
    (h : ∀ c ∈ l, isDigitChar c = true) :
    pyInt l = some ((digitsToNat l : Nat) : Int) := by
  rw [pyInt, stripSpaces_of_digits h]
  cases l with
  | nil => exact absurd rfl hne
  | cons c cs =>
    have hc := h c (List.mem_cons_self c cs)
    rw [pyIntCore, if_neg (isDigitChar_ne_plus hc), if_neg (isDigitChar_ne_dash hc),
      parseDigits_of_digits hne h]
    rfl

theorem pyInt_isSome_of_digits {l : List Char} (hne : l ≠ [])
    (h : ∀ c ∈ l, isDigitChar c = true) : (pyInt l).isSome = true := by
  rw [pyInt_of_digits hne h]; rfl

theorem splitOnDash_ne_nil (l : List Char) : splitOnDash l ≠ [] := by
  cases l with
  | nil => simp [splitOnDash]
  | cons c cs =>
    rw [splitOnDash]
    split
    · simp
    · cases h : splitOnDash cs <;> simp

theorem splitOnDash_no_dash {l : List Char} (h : '-' ∉ l) : splitOnDash l = [l] := by
  induction l with
  | nil => rfl
  | cons c cs ih =>
    have hc : c ≠ '-' := by rintro rfl; exact h (List.mem_cons_self _ _)
    have hcs : '-' ∉ cs := fun hx => h (List.mem_cons_of_mem _ hx)
    rw [splitOnDash, if_neg hc, ih hcs]

theorem splitOnDash_append {a : List Char} (r : List Char) (h : '-' ∉ a) :
    splitOnDash (a ++ '-' :: r) = a :: splitOnDash r := by
  induction a with
  | nil => simp [splitOnDash]
  | cons c cs ih =>
    have hc : c ≠ '-' := by rintro rfl; exact h (List.mem_cons_self _ _)
    have hcs : '-' ∉ cs := fun hx => h (List.mem_cons_of_mem _ hx)
    rw [List.cons_append, splitOnDash, if_neg hc,
      ih hcs]

theorem intParts_ok_of_all_some {ps : List (List Char)}
    (h : ∀ p ∈ ps, (pyInt p).isSome = true) :
    ∃ ns, intParts ps = Except.ok ns ∧ ns.length = ps.length := by
  induction ps with
  | nil => exact ⟨[], rfl, rfl⟩
  | cons p t ih =>
    obtain ⟨n, hn⟩ := Option.isSome_iff_exists.mp (h p (List.mem_cons_self _ _))
    obtain ⟨ns, hns, hlen⟩ := ih (fun x hx => h x (List.mem_cons_of_mem _ hx))
    exact ⟨n :: ns, by rw [intParts, hn, hns], by simp [hlen]⟩

theorem intParts_error_of_mem {ps : List (List Char)} {p : List Char}
    (hp : p ∈ ps) (hbad : pyInt p = none) :
    ∃ q, intParts ps = Except.error (ConvError.numericError q) := by
  induction ps with
  | nil => exact absurd hp (List.not_mem_nil p)
  | cons a t ih =>
    cases ha : pyInt a with
    | none => exact ⟨a, by rw [intParts, ha]⟩
    | some n =>
      have hpt : p ∈ t := by
        rcases List.mem_cons.mp hp with rfl | hx
        · rw [hbad] at ha; exact Option.noConfusion ha
        · exact hx
      obtain ⟨q, hq⟩ := ih hpt
      exact ⟨q, by rw [intParts, ha, hq]⟩

theorem data_isEmpty_false {s : String} (h : s ≠ "") : s.data.isEmpty = false := by
  cases s with
  | mk d =>
    cases d with
    | nil => exact absurd rfl h
    | cons c cs => rfl

theorem convert_date_some {s : String} (h : s.data.isEmpty = false) :
    convert_date (some s) =
      match intParts (splitOnDash s.data) with
      | Except.error e => Except.error e
      | Except.ok parts =>
        match parts with
        | [year, month, day] => (pyDate year month day).map some
        | _ => Except.error ConvError.formatError := by
  rw [convert_date, if_neg (by simp [h])]

/-! Claim theorems. -/

/-- Claim C1: for every string of the form "YYYY-MM-DD" — four digit
characters, a dash, two digit characters, a dash, two digit characters —
whose three dash-separated components form a valid calendar date,
`convert_date` returns the structured date (YYYY, MM, DD). -/
theorem convert_date_iso8601 (s : String) (y1 y2 y3 y4 m1 m2 d1 d2 : Char)
    (hs : s.data = [y1, y2, y3, y4, '-', m1, m2, '-', d1, d2])
    (hy : ∀ c ∈ [y1, y2, y3, y4], isDigitChar c = true)
    (hm : ∀ c ∈ [m1, m2], isDigitChar c = true)
    (hd : ∀ c ∈ [d1, d2], isDigitChar c = true)
    (hvalid : isValidDate (digitsToNat [y1, y2, y3, y4]) (digitsToNat [m1, m2])
      (digitsToNat [d1, d2]) = true) :
    convert_date (some s) =
      Except.ok (some ⟨digitsToNat [y1, y2, y3, y4], digitsToNat [m1, m2],
        digitsToNat [d1, d2]⟩) := by
  have hys : '-' ∉ [y1, y2, y3, y4] := fun hx => absurd (hy '-' hx) (by decide)
  have hms : '-' ∉ [m1, m2] := fun hx => absurd (hm '-' hx) (by decide)
  have hds : '-' ∉ [d1, d2] := fun hx => absurd (hd '-' hx) (by decide)
  have hsplit : splitOnDash s.data = [[y1, y2, y3, y4], [m1, m2], [d1, d2]] := by
    rw [hs, show ([y1, y2, y3, y4, '-', m1, m2, '-', d1, d2] : List Char) =
      [y1, y2, y3, y4] ++ '-' :: ([m1, m2] ++ '-' :: [d1, d2]) from rfl,
      splitOnDash_append _ hys, splitOnDash_append _ hms, splitOnDash_no_dash hds]
  have hempty : s.data.isEmpty = false := by rw [hs]; rfl
  rw [convert_date_some hempty, hsplit]
  simp only [intParts, pyInt_of_digits (by simp) hy, pyInt_of_digits (by simp) hm,
    pyInt_of_digits (by simp) hd]
  rw [pyDate, if_pos hvalid]
  rfl

/-- Claim C1 instance: `convert_date("2012-01-15")` is the date
(2012, 1, 15). -/
theorem convert_date_iso8601_witness :
    convert_date (some "2012-01-15") = Except.ok (some ⟨2012, 1, 15⟩) := by
  have h := convert_date_iso8601 "2012-01-15" '2' '0' '1' '2' '0' '1' '1' '5'
    rfl (by decide) (by decide) (by decide) (by decide)
  exact h

/-- Claim C2: for an absent (`None`) or empty input string, `convert_date`
returns null and raises no error. -/
theorem convert_date_empty (s : Option String) (h : s = none ∨ s = some "") :
    convert_date s = Except.ok none := by
  rcases h with rfl | rfl <;> rfl

/-- Claim C2 instances: the two inputs covered by the claim. -/
theorem convert_date_empty_witness :
    convert_date none = Except.ok none ∧ convert_date (some "") = Except.ok none :=
  ⟨convert_date_empty none (Or.inl rfl), convert_date_empty (some "") (Or.inr rfl)⟩

/-- Claim C3 counterexample: "2012-ab" is non-empty and splits into two
parts, yet `convert_date` does not raise the format error (it raises the
numeric error of `int()` on "ab" first). -/
theorem convert_date_format_counterexample :
    (("2012-ab" : String) ≠ "") ∧
    (splitOnDash ("2012-ab" : String).data).length ≠ 3 ∧
    convert_date (some "2012-ab") ≠ Except.error ConvError.formatError := by
  refine ⟨by decide, by decide, ?_⟩
  intro h
  rw [show convert_date (some "2012-ab")
      = Except.error (ConvError.numericError ['a', 'b']) from rfl] at h
  injection h with h2
  exact ConvError.noConfusion h2

/-- Claim C3 (amended): for every non-empty input string whose dash-separated
parts are all parseable as integers and whose part count is not exactly
three, `convert_date` fails with the format error
("Date not in ISO 8601 format."). -/
theorem convert_date_format_error (s : String)
    (hne : s ≠ "")
    (hall : ∀ p ∈ splitOnDash s.data, (pyInt p).isSome = true)
    (hlen : (splitOnDash s.data).length ≠ 3) :
    convert_date (some s) = Except.error ConvError.formatError := by
  obtain ⟨ns, hns, hlen2⟩ := intParts_ok_of_all_some hall
  rw [convert_date_some (data_isEmpty_false hne), hns]
  have hns3 : ns.length ≠ 3 := by rw [hlen2]; exact hlen
  rcases ns with _ | ⟨a, _ | ⟨b, _ | ⟨c, _ | ⟨d, t⟩⟩⟩⟩
  · rfl
  · rfl
  · rfl
  · exact absurd rfl hns3
  · rfl

/-- Claim C3 instance: "2012-01" (two integer parts) fails with the format
error. -/
theorem convert_date_format_error_witness :
    convert_date (some "2012-01") = Except.error ConvError.formatError :=
  convert_date_format_error "2012-01" (by decide) (by decide) (by decide)

/-- Claim C4: for every non-empty input string one of whose dash-separated
parts is not parseable as an integer, `convert_date` fails with the numeric
error of `int()`. -/
theorem convert_date_numeric (s : String) (p : List Char)
    (hne : s ≠ "") (hp : p ∈ splitOnDash s.data) (hbad : pyInt p = none) :
    ∃ q, convert_date (some s) = Except.error (ConvError.numericError q) := by
  obtain ⟨q, hq⟩ := intParts_error_of_mem hp hbad
  exact ⟨q, by rw [convert_date_some (data_isEmpty_false hne), hq]⟩

/-- Claim C4 instance: "2012-01-ab" fails with the numeric error. -/
theorem convert_date_numeric_witness :
    ∃ q, convert_date (some "2012-01-ab") = Except.error (ConvError.numericError q) :=
  convert_date_numeric "2012-01-ab" ['a', 'b'] (by decide) (by decide) (by decide)

/-- Claim C5: for every non-empty input string that decomposes into exactly
three integer parts not forming a valid calendar date, `convert_date` fails
with the calendar error of the `datetime.date` constructor. -/
theorem convert_date_calendar (s : String) (y m d : Int)
    (hne : s ≠ "")
    (hparts : intParts (splitOnDash s.data) = Except.ok [y, m, d])
    (hinvalid : isValidDate y m d = false) :
    convert_date (some s) = Except.error ConvError.calendarError := by
  rw [convert_date_some (data_isEmpty_false hne), hparts]
  show (pyDate y m d).map some = Except.error ConvError.calendarError
  rw [pyDate, if_neg (by simp [hinvalid])]
  rfl

/-- Claim C5 instance: "2012-15-01" (month 15) fails with the calendar
error. -/
theorem convert_date_calendar_witness :
    convert_date (some "2012-15-01") = Except.error ConvError.calendarError :=
  convert_date_calendar "2012-15-01" 2012 15 1 (by decide) (by decide) (by decide)

/-- Claim C6: whenever zero or both selector flags are set, `main` reports
the usage error of `parser.error` (message on the error stream), its exit
status is non-zero, and the injected validation function is never called
(the call trace is empty). -/
theorem main_usage_error (vf : String → String → Bool) (args : Args)
    (h : args.debian = args.ubuntu) :
    main vf args =
      (MainOutcome.usageError "You have to select exactly one of --debian, --ubuntu.", []) ∧
    (main vf args).1.exitCode ≠ 0 := by
  rcases args with ⟨db, ub, f⟩
  cases db <;> cases ub <;> simp_all [main, selectedCount, MainOutcome.exitCode]

/-- Claim C6 instance: both flags set (`-d -u`). -/
theorem main_usage_error_witness :
    main (fun _ _ => true) ⟨true, true, "debian.csv"⟩ =
      (MainOutcome.usageError "You have to select exactly one of --debian, --ubuntu.", []) ∧
    (main (fun _ _ => true) ⟨true, true, "debian.csv"⟩).1.exitCode ≠ 0 :=
  main_usage_error (fun _ _ => true) ⟨true, true, "debian.csv"⟩ rfl

/-- Claim C7: with exactly one selector flag set, the validation function
is called exactly once, with the distro label "debian" when the `-d` flag
is set and "ubuntu" when the `-u` flag is set, and every label ever passed
is one of those two strings. -/
theorem main_distro_label (vf : String → String → Bool) (args : Args)
    (h : args.debian ≠ args.ubuntu) :
    (main vf args).2 =
      [(args.csv_file, if args.debian then "debian" else "ubuntu")] ∧
    ∀ pr ∈ (main vf args).2, pr.2 = "debian" ∨ pr.2 = "ubuntu" := by
  rcases args with ⟨db, ub, f⟩
  cases db <;> cases ub <;> simp_all [main, selectedCount]

/-- Claim C7 instance: `-d` only; the label passed is "debian". -/
theorem main_distro_label_witness :
    (main (fun _ _ => true) ⟨true, false, "debian.csv"⟩).2 = [("debian.csv", "debian")] ∧
    ∀ pr ∈ (main (fun _ _ => true) ⟨true, false, "debian.csv"⟩).2,
      pr.2 = "debian" ∨ pr.2 = "ubuntu" := by
  have h := main_distro_label (fun _ _ => true) ⟨true, false, "debian.csv"⟩ (by decide)
  simpa using h

/-- Claim C8: with exactly one selector flag set, `main` returns exit code
0 when the injected validation function returns true and exit code 1 when
it returns false. -/
theorem main_exit_code (vf : String → String → Bool) (args : Args)
    (h : args.debian ≠ args.ubuntu) :
    (vf args.csv_file (if args.debian then "debian" else "ubuntu") = true →
      (main vf args).1 = MainOutcome.exit 0) ∧
    (vf args.csv_file (if args.debian then "debian" else "ubuntu") = false →
      (main vf args).1 = MainOutcome.exit 1) := by
  constructor
  · intro hv
    rcases args with ⟨db, ub, f⟩
    cases db <;> cases ub <;> simp_all [main, selectedCount]
  · intro hv
    rcases args with ⟨db, ub, f⟩
    cases db <;> cases ub <;> simp_all [main, selectedCount]

/-- Claim C8 instances: `-d` only, with a validator returning true
(exit 0) and one returning false (exit 1). -/
theorem main_exit_code_witness :
    (main (fun _ _ => true) ⟨true, false, "debian.csv"⟩).1 = MainOutcome.exit 0 ∧
    (main (fun _ _ => false) ⟨true, false, "debian.csv"⟩).1 = MainOutcome.exit 1 :=
  ⟨(main_exit_code (fun _ _ => true) ⟨true, false, "debian.csv"⟩ (by decide)).1 rfl,
   (main_exit_code (fun _ _ => false) ⟨true, false, "debian.csv"⟩ (by decide)).2 rfl⟩

/-- Claim C9: the integer conversion of the parts happens before the part
count is checked, so a non-empty string whose part count differs from three
and which contains an unparseable part raises the numeric error of `int()`,
never the format error. -/
theorem convert_date_numeric_precedence (s : String) (p : List Char)
    (hne : s ≠ "") (hlen : (splitOnDash s.data).length ≠ 3)
    (hp : p ∈ splitOnDash s.data) (hbad : pyInt p = none) :
    (∃ q, convert_date (some s) = Except.error (ConvError.numericError q)) ∧
    convert_date (some s) ≠ Except.error ConvError.formatError := by
  obtain ⟨q, hq⟩ := intParts_error_of_mem hp hbad
  have hcv : convert_date (some s) = Except.error (ConvError.numericError q) := by
    rw [convert_date_some (data_isEmpty_false hne), hq]
  refine ⟨⟨q, hcv⟩, ?_⟩
  rw [hcv]
  intro h
  injection h with h2
  exact ConvError.noConfusion h2

/-- Claim C9 instance: "2012-ab" has two parts, one unparseable; the
numeric error wins over the format error. -/
theorem convert_date_numeric_precedence_witness :
    (∃ q, convert_date (some "2012-ab") = Except.error (ConvError.numericError q)) ∧
    convert_date (some "2012-ab") ≠ Except.error ConvError.formatError :=
  convert_date_numeric_precedence "2012-ab" ['a', 'b'] (by decide) (by decide)
    (by decide) (by decide)

/-- Claim C10: `convert_date` is not restricted to zero-padded
"YYYY-MM-DD" strings: any three dash-free components accepted by `int()`
as non-negative integers (single digits, leading whitespace, a leading
plus sign, leading zeros) that form a valid calendar date are accepted and
yield that date. -/
theorem convert_date_lenient (s : String) (a b c : List Char) (y m d : Int)
    (hs : s.data = a ++ '-' :: (b ++ '-' :: c))
    (hna : '-' ∉ a) (hnb : '-' ∉ b) (hnc : '-' ∉ c)
    (hy : pyInt a = some y) (hm : pyInt b = some m) (hd : pyInt c = some d)
    (hy0 : 0 ≤ y) (hm0 : 0 ≤ m) (hd0 : 0 ≤ d)
    (hvalid : isValidDate y m d = true) :
    convert_date (some s) = Except.ok (some ⟨y, m, d⟩) := by
  have hempty : s.data.isEmpty = false := by rw [hs]; cases a <;> rfl
  have hsplit : splitOnDash s.data = [a, b, c] := by
    rw [hs, splitOnDash_append _ hna, splitOnDash_append _ hnb, splitOnDash_no_dash hnc]
  rw [convert_date_some hempty, hsplit]
  simp only [intParts, hy, hm, hd]
  rw [pyDate, if_pos hvalid]
  rfl

/-- Claim C10 instance: " 2012-+1-05" (leading whitespace, plus sign,
single digit, leading zero) is accepted as the date (2012, 1, 5). -/
theorem convert_date_lenient_witness :
    convert_date (some " 2012-+1-05") = Except.ok (some ⟨2012, 1, 5⟩) := by
  have h := convert_date_lenient " 2012-+1-05" [' ', '2', '0', '1', '2'] ['+', '1']
    ['0', '5'] 2012 1 5 rfl (by decide) (by decide) (by decide) (by decide) (by decide)
    (by decide) (by decide) (by decide) (by decide) (by decide)
  exact h

end Tools
